import Mathlib

/-!
Verification model of the calendar_telegram_bot repository.

Times are modelled as `Int` minutes on a single linear clock (the code keeps
all datetimes in one timezone for each comparison, so a fixed-offset timezone
conversion cancels out of every comparison it performs).  Fallible external
calls (Google Calendar, Telegram sends, the database) are modelled as explicit
outcome parameters; a Python exception that the code catches corresponds to a
distinguished outcome value, a Python exception the code lets escape
corresponds to a `false`/failure result of the modelled function.
-/

namespace CalendarBot

/-! ## SlotAvailabilityEngine: backend/services/calendar_service.py and
    BookingService.is_slot_available (backend/services/booking_service.py) -/

/-- Model of one busy interval returned by `CalendarService.get_busy_slots`:
a dict with keys `start` and `end`.  `stop` stands for the `end` key. -/
structure BusyInterval where
  start : Int
  stop : Int
deriving DecidableEq, Repr

/-- Model of the overlap test used both in `get_free_slots`
(`current_slot < busy['end'] and slot_end > busy['start']`, line 183) and in
`is_slot_available` (line 291). -/
def overlapsBusy (s e : Int) (b : BusyInterval) : Bool :=
  decide (s < b.stop ∧ e > b.start)

/-- Model of the `for busy in busy_slots` loop of `get_free_slots` lines
181-185: the candidate is busy iff some busy interval overlaps it. -/
def slotIsBusy (s e : Int) (busy : List BusyInterval) : Bool :=
  busy.any (overlapsBusy s e)

/-- Model of `BookingService.is_slot_available` (booking_service.py lines
276-298).  The argument is the result of `get_busy_slots`: `none` models the
provider raising (the `except` branch returns `False`), `some busy` models a
successful listing, after which the function returns `False` exactly when some
busy interval satisfies `start_time < busy['end'] and end_time >
busy['start']`. -/
def is_slot_available (s e : Int) (busyListing : Option (List BusyInterval)) : Bool :=
  match busyListing with
  | none => false
  | some busy => !(slotIsBusy s e busy)

/-- Model of the `while current_slot < end_of_day` loop of `get_free_slots`
(calendar_service.py lines 170-201).  `fuel` bounds the number of iterations;
the wrapper `freeSlotsForDay` passes enough fuel for the whole scan, which
advances by the fixed 30-minute scan granularity (`slot_interval`) each
iteration.  A slot is appended when it fits before `end_of_day` (otherwise the
loop breaks) and no busy interval overlaps it.  Slots are returned as
`(start, end)` pairs. -/
def genFreeSlotsAux : Nat → Int → Int → Int → List BusyInterval → List (Int × Int)
  | 0, _, _, _, _ => []
  | fuel + 1, cur, dayEnd, dur, busy =>
    if cur < dayEnd then
      if cur + dur > dayEnd then
        []
      else if slotIsBusy cur (cur + dur) busy then
        genFreeSlotsAux fuel (cur + 30) dayEnd dur busy
      else
        (cur, cur + dur) :: genFreeSlotsAux fuel (cur + 30) dayEnd dur busy
    else []

/-- Free slots produced by `get_free_slots` for one day of the horizon, given
the day's working window `[dayStart, dayEnd)` (minutes) and the busy intervals
the provider reported for that day. -/
def freeSlotsForDay (dayStart dayEnd dur : Int) (busy : List BusyInterval) : List (Int × Int) :=
  genFreeSlotsAux (dayEnd - dayStart).toNat dayStart dayEnd dur busy

/-- Model of `CalendarService.get_free_slots` (calendar_service.py lines
121-203) over the whole horizon.  `nowBase` is midnight of the current day in
minutes; day `day_offset` of the horizon runs from `start_hour` to `end_hour`
of that calendar day.  `busyFetch dayStart dayEnd` models
`get_busy_slots(current_day, end_of_day)`: `none` models the call raising
after retries, in which case the day is skipped (`continue`, line 167). -/
def get_free_slots (nowBase : Int) (days : Nat) (skipToday : Bool)
    (startHour endHour slotDuration : Int)
    (busyFetch : Int → Int → Option (List BusyInterval)) : List (Int × Int) :=
  let startOffset : Nat := if skipToday then 1 else 0
  (List.range days).foldr
    (fun i acc =>
      let dayOffset : Int := (startOffset + i : Nat)
      let dayStart := nowBase + 1440 * dayOffset + 60 * startHour
      let dayEnd := nowBase + 1440 * dayOffset + 60 * endHour
      (match busyFetch dayStart dayEnd with
       | none => []
       | some busy => freeSlotsForDay dayStart dayEnd slotDuration busy) ++ acc)
    []

/-! ## BookingCoordinator: BookingService.book_slot
    (backend/services/booking_service.py lines 40-219) -/

/-- Outcome of the database persistence block of `book_slot` (lines 154-202).
`dbUnavailable` models `get_or_create_parent` returning `None` (no
`DATABASE_URL`); `dbError` models any exception inside the block, which the
code catches and turns into `lesson_id = None`; `dbSaved lid` models a
successfully committed `TrialLesson` row with id `lid`. -/
inductive DbPersistOutcome where
  | dbUnavailable
  | dbError
  | dbSaved (lessonId : Nat)
deriving DecidableEq, Repr

/-- The dict returned by `book_slot`. -/
structure BookingResult where
  success : Bool
  error : Option String
  eventId : Option String
  lessonId : Option Nat
deriving DecidableEq, Repr

/-- External side effects `book_slot` performed on the remote calendar and the
database. -/
structure BookingEffects where
  createdEvent : Bool
  createdLesson : Bool
deriving DecidableEq, Repr

/-- Model of `BookingService.book_slot`.  `busyCheck` is what
`get_busy_slots` returns inside the availability re-check (`none` = the
provider raised, which `is_slot_available` turns into `False`);
`createOutcome` is the id of the event `create_event` returns, or `none` if
`create_event` raises (the outer `except` then returns
`{'success': False, 'error': str(e)}`); `userId`/`dbOutcome` drive the
database block.  Sheets writes (lines 111-152) are best-effort and change
neither result nor the modelled effects. -/
def book_slot (busyCheck : Option (List BusyInterval)) (s e : Int)
    (userId : Option Nat) (createOutcome : Option String)
    (dbOutcome : DbPersistOutcome) : BookingResult × BookingEffects :=
  if is_slot_available s e busyCheck = false then
    ({ success := false, error := some "Слот уже занят",
       eventId := none, lessonId := none },
     { createdEvent := false, createdLesson := false })
  else
    match createOutcome with
    | none =>
      ({ success := false, error := some "create_event exception",
         eventId := none, lessonId := none },
       { createdEvent := false, createdLesson := false })
    | some eid =>
      let lessonId : Option Nat :=
        match userId, dbOutcome with
        | some _, .dbSaved lid => some lid
        | _, _ => none
      ({ success := true, error := none,
         eventId := some eid, lessonId := lessonId },
       { createdEvent := true, createdLesson := lessonId.isSome })

/-! ## ModerationGuard and the text-message handler:
    backend/handlers/sales_funnel.py `handle_text_message` (lines 108-279),
    backend/db/database.py `increment_irrelevant_count` (109-154),
    `block_user` (207-217) and `unblock_and_reset` (462-482) -/

/-- The `IRRELEVANT_QUERY_LIMIT` constant of sales_funnel.py line 37. -/
def IRRELEVANT_QUERY_LIMIT : Nat := 3

/-- The slice of a `Parent` row that `handle_text_message` reads and writes:
`irrelevant_count`, `is_blocked` and whether `onboarding_completed_at` is
set. -/
structure ParentProfile where
  irrelevantCount : Nat
  isBlocked : Bool
  onboardingCompleted : Bool
deriving DecidableEq, Repr

/-- The kinds of assistant replies `handle_text_message` can send. -/
inductive BotReply where
  | onboardingInvite
  | intentAction
  | templateAnswer
  | softNudge
  | handoffOffer
  | blockHandoff
  | ragAnswer
  | fallbackEscalation
deriving DecidableEq, Repr

/-- The classification results of the current message that the handler
branches on: an actionable recognized intent, a keyword template hit, the
LLM relevance verdict, and whether RAG produced an answer. -/
structure MsgFlags where
  hasIntentAction : Bool
  hasTemplate : Bool
  relevant : Bool
  hasRagAnswer : Bool
deriving DecidableEq, Repr

/-- An off-topic free-text message: no actionable intent, no template hit,
classified irrelevant. -/
def offTopicMsg : MsgFlags :=
  { hasIntentAction := false, hasTemplate := false,
    relevant := false, hasRagAnswer := false }

/-- Model of `handle_text_message`.  Returns the persisted profile after the
turn, the assistant replies sent to the user, and the number of
`notify_admin_of_block` operator notifications emitted.  The branches follow
the source order: blocked guard (lines 141-143), onboarding guard (145-152),
recognized actionable intent (170-174), keyword template (183-189), the
irrelevance/moderation branch (195-226, with `increment_irrelevant_count`
and, at the limit, `block_user` plus `notify_admin_of_block`), the RAG answer
(229-263) and the fallback escalation (266-270, whose
`notify_admin_of_request` is a different notification and is not counted
here). -/
def handle_text_message (p : ParentProfile) (m : MsgFlags) :
    ParentProfile × List BotReply × Nat :=
  if p.isBlocked then (p, [], 0)
  else if !p.onboardingCompleted then (p, [.onboardingInvite], 0)
  else if m.hasIntentAction then (p, [.intentAction], 0)
  else if m.hasTemplate then (p, [.templateAnswer], 0)
  else if !m.relevant then
    let newCount := p.irrelevantCount + 1
    if newCount = 1 then
      ({ p with irrelevantCount := newCount }, [.softNudge], 0)
    else if newCount < IRRELEVANT_QUERY_LIMIT then
      ({ p with irrelevantCount := newCount }, [.handoffOffer], 0)
    else
      ({ p with irrelevantCount := newCount, isBlocked := true },
       [.blockHandoff], 1)
  else if m.hasRagAnswer then (p, [.ragAnswer], 0)
  else (p, [.fallbackEscalation], 0)

/-- Model of `unblock_and_reset` (database.py lines 462-482): one UPDATE that
sets `is_blocked = False` and `irrelevant_count = 0`. -/
def unblock_and_reset (p : ParentProfile) : ParentProfile :=
  { p with isBlocked := false, irrelevantCount := 0 }

/-- Processing of a sequence of incoming messages, accumulating every reply
sent and every operator block-notification emitted. -/
def runMessages : List MsgFlags → ParentProfile → ParentProfile × List BotReply × Nat
  | [], p => (p, [], 0)
  | m :: ms, p =>
    let r := handle_text_message p m
    let rest := runMessages ms r.1
    (rest.1, r.2.1 ++ rest.2.1, r.2.2 + rest.2.2)

/-! ## ReminderScheduler: backend/scheduler/tasks.py
    `check_and_send_reminders` (27-117) and `check_completed_lessons`
    (183-217), with `mark_lesson_completed` (database.py 680-703) -/

/-- Lifecycle status of a `TrialLesson` (backend/db/models.py lines 56-60). -/
inductive TrialLessonStatus where
  | PLANNED
  | COMPLETED
  | CANCELLED
  | NO_SHOW
deriving DecidableEq, Repr

/-- The slice of a `TrialLesson` row that the scheduler sweeps read and
write.  `scheduledAt` is the stored UTC-naive time in minutes. -/
structure Lesson where
  id : Nat
  scheduledAt : Int
  status : TrialLessonStatus
  reminder24hSent : Bool
  reminder1hSent : Bool
deriving DecidableEq, Repr

/-- Outcome of one `send_reminder_message` call (tasks.py lines 120-180).
`delivered`: `bot.send_message` succeeded.  `sendFailedSwallowed`:
`bot.send_message` raised, but the `try/except` at lines 177-180 caught it
and only logged, so the coroutine still returned normally.  `handlerRaised`:
the coroutine raised outside that `try` (e.g. while formatting the
template), which `asyncio.gather(..., return_exceptions=True)` reports as an
exception. -/
inductive SendOutcome where
  | delivered
  | sendFailedSwallowed
  | handlerRaised
deriving DecidableEq, Repr

/-- Whether `asyncio.gather` sees the reminder coroutine finish without an
exception (tasks.py lines 91-102): true unless the coroutine itself raised. -/
def reminderReturnsNormally : SendOutcome → Bool
  | .handlerRaised => false
  | _ => true

/-- Whether the user actually received the notification. -/
def reminderDelivered : SendOutcome → Bool
  | .delivered => true
  | _ => false

/-- The 24-hour reminder window `[now+23h50m, now+24h10m]` in minutes
(tasks.py lines 37-38, 74). -/
def inWindow24h (now sched : Int) : Bool :=
  decide (now + 1430 ≤ sched ∧ sched ≤ now + 1450)

/-- The 1-hour reminder window `[now+50m, now+1h10m]` in minutes (tasks.py
lines 39-40, 75). -/
def inWindow1h (now sched : Int) : Bool :=
  decide (now + 50 ≤ sched ∧ sched ≤ now + 70)

/-- One lesson's passage through `check_and_send_reminders`: the wide
prefilter `status == PLANNED and scheduled_at <= now + 25h` (lines 49-57),
then the `if in_window_24h ... elif in_window_1h ...` dispatch (74-85), the
send, and the flag update that is applied for exactly the lessons whose
coroutine did not raise (93-111).  Returns the updated lesson row together
with `some (id, delivered?)` when a send was attempted. -/
def sweepLessonReminder (now : Int) (send : Nat → SendOutcome) (l : Lesson) :
    Lesson × Option (Nat × Bool) :=
  if l.status = .PLANNED ∧ l.scheduledAt ≤ now + 1500 then
    if inWindow24h now l.scheduledAt && !l.reminder24hSent then
      let o := send l.id
      (if reminderReturnsNormally o then { l with reminder24hSent := true } else l,
       some (l.id, reminderDelivered o))
    else if inWindow1h now l.scheduledAt && !l.reminder1hSent then
      let o := send l.id
      (if reminderReturnsNormally o then { l with reminder1hSent := true } else l,
       some (l.id, reminderDelivered o))
    else (l, none)
  else (l, none)

/-- Model of one run of `check_and_send_reminders`: every planned lesson in a
reminder window with its flag still unset gets one send attempt; flags are
then set for the attempts whose coroutine returned normally.  Returns the
updated lessons and the ids of lessons whose notification was actually
delivered to the user. -/
def check_and_send_reminders (now : Int) (send : Nat → SendOutcome)
    (lessons : List Lesson) : List Lesson × List Nat :=
  (lessons.map (fun l => (sweepLessonReminder now send l).1),
   lessons.filterMap (fun l =>
     match (sweepLessonReminder now send l).2 with
     | some (i, true) => some i
     | _ => none))

/-- One lesson's passage through `check_completed_lessons` (tasks.py lines
183-217): a lesson is selected when `status == PLANNED` and
`scheduled_at <= now - 1h` (lines 192, 196-199), and `mark_lesson_completed`
then sets its status to COMPLETED (database.py lines 686-693). -/
def completeLessonSweepOne (now : Int) (l : Lesson) : Lesson :=
  if l.status = .PLANNED ∧ l.scheduledAt ≤ now - 60 then
    { l with status := .COMPLETED }
  else l

/-- Model of one run of `check_completed_lessons` over the lesson table. -/
def check_completed_lessons (now : Int) (lessons : List Lesson) : List Lesson :=
  lessons.map (completeLessonSweepOne now)

/-! ## Onboarding completion:
    backend/handlers/onboarding_handlers.py `finish_onboarding` (183-253),
    backend/db/database.py `add_child_profile` (232-245) and
    `complete_onboarding_in_db` (517-545) -/

/-- The `Child` row created by `add_child_profile`. -/
structure ChildRec where
  name : String
  age : Nat
  interests : Option String
deriving DecidableEq, Repr

/-- The fields of the `Parent` row written by `complete_onboarding_in_db`. -/
structure ParentRow where
  fullName : Option String
  phone : Option String
  email : Option String
  onboardingCompletedAt : Option Int
  onboardingStepCompleted : Bool
deriving DecidableEq, Repr

/-- The persisted state touched by onboarding completion. -/
structure OnboardingStore where
  children : List ChildRec
  parent : ParentRow
deriving DecidableEq, Repr

/-- Model of `add_child_profile` (database.py 232-245): inserts one `Child`
row in its own session and commits. -/
def add_child_profile (st : OnboardingStore) (c : ChildRec) : OnboardingStore :=
  { st with children := st.children ++ [c] }

/-- Model of `complete_onboarding_in_db` (database.py 517-545): one UPDATE
in one session that sets the completion timestamp, the contact fields and the
onboarding step together, then commits. -/
def complete_onboarding_in_db (st : OnboardingStore)
    (fullName phone email : Option String) (now : Int) : OnboardingStore :=
  { st with parent :=
      { fullName := fullName, phone := phone, email := email,
        onboardingCompletedAt := some now, onboardingStepCompleted := true } }

/-- Model of `finish_onboarding` (onboarding_handlers.py 183-253).  It first
runs `add_child_profile` and then `complete_onboarding_in_db`; each is a
separate database transaction that commits on its own.  `childTxOk` /
`completeTxOk` say whether each call succeeds; a raising call leaves the
store as it was before that call and the exception escapes the handler (there
is no `try` in `finish_onboarding`), so the returned Bool records whether the
whole handler completed.  The returned store is what remains persisted in
either case. -/
def finish_onboarding (st : OnboardingStore) (c : ChildRec)
    (fullName phone email : Option String) (now : Int)
    (childTxOk completeTxOk : Bool) : OnboardingStore × Bool :=
  if !childTxOk then (st, false)
  else
    let st1 := add_child_profile st c
    if !completeTxOk then (st1, false)
    else (complete_onboarding_in_db st1 fullName phone email now, true)

/-! ## Layout correction: backend/core/llm_service.py
    `needs_layout_correction` (74-94), `to_russian_layout` (67-72) and
    `is_query_relevant_with_layout_correction` (176-183) -/

/-- Matches the regex `[A-Za-z]` of llm_service.py line 76. -/
def isLatinLetter (c : Char) : Bool :=
  (65 ≤ c.toNat && c.toNat ≤ 90) || (97 ≤ c.toNat && c.toNat ≤ 122)

/-- Matches the regex `[А-Яа-яЁё]` of llm_service.py line 77: the contiguous
Cyrillic block U+0410-U+044F plus Ё (U+0401) and ё (U+0451). -/
def isCyrillicLetter (c : Char) : Bool :=
  (0x410 ≤ c.toNat && c.toNat ≤ 0x44F) || c.toNat == 0x401 || c.toNat == 0x451

/-- Whitespace for Python's `str.split()` (ASCII range: space, tab, LF, VT,
FF, CR). -/
def isPySpace (c : Char) : Bool :=
  c.toNat == 32 || c.toNat == 9 || c.toNat == 10 ||
  c.toNat == 11 || c.toNat == 12 || c.toNat == 13

/-- Accumulator pass for `str.split()`: split on whitespace runs, dropping
empty fragments. -/
def splitWordsAux : List Char → List Char → List (List Char)
  | [], acc => if acc.isEmpty then [] else [acc.reverse]
  | c :: cs, acc =>
    if isPySpace c then
      if acc.isEmpty then splitWordsAux cs []
      else acc.reverse :: splitWordsAux cs []
    else splitWordsAux cs (c :: acc)

/-- Python's `text.split()` (llm_service.py line 89). -/
def splitWords (t : List Char) : List (List Char) :=
  splitWordsAux t []

/-- The count of Latin letters in the text (line 76). -/
def latinCount (t : List Char) : Nat :=
  (t.filter isLatinLetter).length

/-- The count of Cyrillic letters in the text (line 77). -/
def cyrillicCount (t : List Char) : Nat :=
  (t.filter isCyrillicLetter).length

/-- Whether a word fully matches `[A-Za-z]+` (line 90): nonempty and all
Latin letters. -/
def wordAllLatin (w : List Char) : Bool :=
  !w.isEmpty && w.all isLatinLetter

/-- Model of `needs_layout_correction` (llm_service.py 74-94). -/
def needs_layout_correction (t : List Char) : Bool :=
  let latin := latinCount t
  let cyrillic := cyrillicCount t
  if cyrillic == 0 && latin > 0 then true
  else if latin > 2 * cyrillic then true
  else
    let words := splitWords t
    if words.length ≤ 2 && words.all wordAllLatin then true
    else false

/-- The translation table built by `str.maketrans(eng + eng.upper(), rus +
rus.upper())` (llm_service.py 67-71).  For the six non-letter characters of
`eng` (which `upper()` leaves unchanged) the second, uppercase-Cyrillic
binding overwrites the first, so they map to uppercase Cyrillic. -/
def layoutPairs : List (Char × Char) :=
  [('q', 'й'), ('w', 'ц'), ('e', 'у'), ('r', 'к'), ('t', 'е'), ('y', 'н'),
   ('u', 'г'), ('i', 'ш'), ('o', 'щ'), ('p', 'з'), ('a', 'ф'), ('s', 'ы'),
   ('d', 'в'), ('f', 'а'), ('g', 'п'), ('h', 'р'), ('j', 'о'), ('k', 'л'),
   ('l', 'д'), ('z', 'я'), ('x', 'ч'), ('c', 'с'), ('v', 'м'), ('b', 'и'),
   ('n', 'т'), ('m', 'ь'),
   ('Q', 'Й'), ('W', 'Ц'), ('E', 'У'), ('R', 'К'), ('T', 'Е'), ('Y', 'Н'),
   ('U', 'Г'), ('I', 'Ш'), ('O', 'Щ'), ('P', 'З'), ('A', 'Ф'), ('S', 'Ы'),
   ('D', 'В'), ('F', 'А'), ('G', 'П'), ('H', 'Р'), ('J', 'О'), ('K', 'Л'),
   ('L', 'Д'), ('Z', 'Я'), ('X', 'Ч'), ('C', 'С'), ('V', 'М'), ('B', 'И'),
   ('N', 'Т'), ('M', 'Ь'),
   ('[', 'Х'), (']', 'Ъ'), (';', 'Ж'), ('\'', 'Э'), (',', 'Б'), ('.', 'Ю')]

/-- Model of `to_russian_layout` (llm_service.py 70-72): translate each
character through the table, leaving unmapped characters unchanged. -/
def to_russian_layout (t : List Char) : List Char :=
  t.map (fun c => ((layoutPairs.find? (fun p => p.1 == c)).map Prod.snd).getD c)

/-- Model of `is_query_relevant_with_layout_correction` (llm_service.py
176-183), parameterized by the classifier `is_query_relevant_ai` as an oracle
from texts to verdicts.  Returns the final verdict and the number of
classifier invocations. -/
def is_query_relevant_with_layout_correction (classify : List Char → Bool)
    (q : List Char) : Bool × Nat :=
  let relevant := classify q
  if !relevant && needs_layout_correction q then
    let fixed := to_russian_layout q
    if fixed ≠ q then (classify fixed, 2)
    else (relevant, 1)
  else (relevant, 1)

/-! ## Theorems -/

theorem slotIsBusy_eq_false_iff (s e : Int) (busy : List BusyInterval) :
    slotIsBusy s e busy = false ↔ ∀ b ∈ busy, ¬(s < b.stop ∧ e > b.start) := by
  simp [slotIsBusy, List.any_eq_false, overlapsBusy]

theorem mem_genFreeSlotsAux_imp {fuel : Nat} {cur dayEnd dur : Int}
    {busy : List BusyInterval} {s e : Int}
    (h : (s, e) ∈ genFreeSlotsAux fuel cur dayEnd dur busy) :
    ∃ k : Nat, s = cur + 30 * k ∧ e = s + dur ∧ s + dur ≤ dayEnd ∧
      slotIsBusy s e busy = false := by
  induction fuel generalizing cur with
  | zero => simp [genFreeSlotsAux] at h
  | succ n ih =>
    rw [genFreeSlotsAux] at h
    by_cases h1 : cur < dayEnd
    · rw [if_pos h1] at h
      by_cases h2 : cur + dur > dayEnd
      · rw [if_pos h2] at h
        simp at h
      · rw [if_neg h2] at h
        by_cases h3 : slotIsBusy cur (cur + dur) busy = true
        · rw [if_pos h3] at h
          obtain ⟨k, hk, he, hle, hb⟩ := ih h
          refine ⟨k + 1, ?_, he, hle, hb⟩
          push_cast
          omega
        · rw [if_neg h3] at h
          rcases List.mem_cons.mp h with heq | htail
          · obtain ⟨hs, he⟩ := Prod.mk.injEq .. ▸ heq
            refine ⟨0, by omega, by omega, by omega, ?_⟩
            rw [hs, he]
            exact Bool.not_eq_true _ ▸ h3
          · obtain ⟨k, hk, he, hle, hb⟩ := ih htail
            refine ⟨k + 1, ?_, he, hle, hb⟩
            push_cast
            omega
    · rw [if_neg h1] at h
      simp at h

theorem mem_genFreeSlotsAux_of {fuel : Nat} {cur dayEnd dur : Int}
    {busy : List BusyInterval} {s e : Int} (hdur : 0 < dur)
    (hfuel : (dayEnd - cur).toNat ≤ fuel) (k : Nat) (hs : s = cur + 30 * k)
    (he : e = s + dur) (hend : s + dur ≤ dayEnd)
    (hfree : slotIsBusy s e busy = false) :
    (s, e) ∈ genFreeSlotsAux fuel cur dayEnd dur busy := by
  induction fuel generalizing cur k with
  | zero => omega
  | succ n ih =>
    have h1 : cur < dayEnd := by omega
    have h2 : ¬(cur + dur > dayEnd) := by omega
    rw [genFreeSlotsAux, if_pos h1, if_neg h2]
    cases k with
    | zero =>
      have hscur : s = cur := by push_cast at hs; omega
      have hecur : e = cur + dur := by omega
      have h3 : ¬(slotIsBusy cur (cur + dur) busy = true) := by
        have hce : cur + dur = e := by omega
        rw [hce, ← hscur, hfree]
        simp
      rw [if_neg h3]
      exact List.mem_cons.mpr (Or.inl (by rw [hscur, hecur]))
    | succ m =>
      have hs' : s = (cur + 30) + 30 * m := by push_cast at hs; omega
      have hfuel' : (dayEnd - (cur + 30)).toNat ≤ n := by omega
      by_cases h3 : slotIsBusy cur (cur + dur) busy = true
      · rw [if_pos h3]
        exact ih hfuel' m hs'
      · rw [if_neg h3]
        exact List.mem_cons_of_mem _ (ih hfuel' m hs')

/-- Claim C1: a candidate slot `S` is reported free by the free-slot scan iff
no busy interval `b` satisfies `S.start < b.end ∧ S.end > b.start` and
`S.end` does not exceed the working-day end; and the same overlap predicate
decides `is_slot_available`.  The candidate slots of the scan are exactly the
pairs `(dayStart + 30k, dayStart + 30k + dur)`. -/
theorem free_slot_iff_no_overlap_and_fits (dayStart dayEnd dur : Int)
    (busy : List BusyInterval) (s e : Int) (hdur : 0 < dur) :
    ((s, e) ∈ freeSlotsForDay dayStart dayEnd dur busy ↔
      (∃ k : Nat, s = dayStart + 30 * k) ∧ e = s + dur ∧ e ≤ dayEnd ∧
        ∀ b ∈ busy, ¬(s < b.stop ∧ e > b.start)) ∧
    (is_slot_available s e (some busy) = true ↔
      ∀ b ∈ busy, ¬(s < b.stop ∧ e > b.start)) := by
  constructor
  · constructor
    · intro h
      obtain ⟨k, hk, he, hle, hfree⟩ := mem_genFreeSlotsAux_imp h
      exact ⟨⟨k, hk⟩, he, by omega, (slotIsBusy_eq_false_iff s e busy).mp hfree⟩
    · rintro ⟨⟨k, hk⟩, he, hle, hfree⟩
      exact mem_genFreeSlotsAux_of hdur le_rfl k hk he (by omega)
        ((slotIsBusy_eq_false_iff s e busy).mpr hfree)
  · rw [show is_slot_available s e (some busy) = !(slotIsBusy s e busy) from rfl,
      Bool.not_eq_true']
    exact slotIsBusy_eq_false_iff s e busy

/-- Witness for C1 at a concrete input: working day 09:00-18:00, one busy
interval 10:00-11:00, candidate slot 11:00-12:00 (minutes since midnight). -/
theorem free_slot_iff_no_overlap_and_fits_witness :
    (((660 : Int), (720 : Int)) ∈ freeSlotsForDay 540 1080 60 [⟨600, 660⟩] ↔
      (∃ k : Nat, (660 : Int) = 540 + 30 * k) ∧ (720 : Int) = 660 + 60 ∧
        (720 : Int) ≤ 1080 ∧
        ∀ b ∈ [BusyInterval.mk 600 660], ¬((660 : Int) < b.stop ∧ (720 : Int) > b.start)) ∧
    (is_slot_available 660 720 (some [⟨600, 660⟩]) = true ↔
      ∀ b ∈ [BusyInterval.mk 600 660], ¬((660 : Int) < b.stop ∧ (720 : Int) > b.start)) :=
  free_slot_iff_no_overlap_and_fits 540 1080 60 [⟨600, 660⟩] 660 720 (by decide)

/-- Claim C2, counterexample: with zero busy intervals, working hours
09:00-18:00 and 60-minute slots, one day of the scan yields 17 slots (the
30-minute scan granularity emits a candidate every half hour), not 9, and the
slots overlap: the first two slots 09:00-10:00 and 09:30-10:30 intersect.
Shown both on one scanned day and on the full one-day-horizon
`get_free_slots` call. -/
theorem get_free_slots_empty_day_not_nine_slots :
    (freeSlotsForDay 540 1080 60 []).length = 17 ∧
    ¬((freeSlotsForDay 540 1080 60 []).length = 9) ∧
    (540, 600) ∈ freeSlotsForDay 540 1080 60 [] ∧
    (570, 630) ∈ freeSlotsForDay 540 1080 60 [] ∧
    ((570 : Int) < 600 ∧ (630 : Int) > 540) ∧
    (get_free_slots 0 1 true 9 18 60 (fun _ _ => some [])).length = 17 := by
  decide

/-- Claim C2 as amended: with zero busy intervals, working hours 09:00-18:00
and 60-minute slots, the one-day scan yields exactly 17 slots in
chronological order, one candidate every 30 minutes starting at 09:00, the
last one starting at 17:00; consecutive slots overlap by 30 minutes. -/
theorem get_free_slots_empty_day_slots :
    freeSlotsForDay 540 1080 60 [] =
      (List.range 17).map (fun k => ((540 + 30 * k : Int), (600 + 30 * k : Int))) ∧
    get_free_slots 0 1 true 9 18 60 (fun _ _ => some []) =
      (List.range 17).map (fun k => ((1980 + 30 * k : Int), (2040 + 30 * k : Int))) := by
  decide

theorem handle_text_message_blocked (p : ParentProfile) (m : MsgFlags)
    (hb : p.isBlocked = true) : handle_text_message p m = (p, [], 0) := by
  simp [handle_text_message, hb]

theorem runMessages_blocked (ms : List MsgFlags) (p : ParentProfile)
    (hb : p.isBlocked = true) : runMessages ms p = (p, [], 0) := by
  induction ms with
  | nil => rfl
  | cons m ms ih =>
    rw [runMessages, handle_text_message_blocked p m hb, ih]
    rfl

theorem runMessages_append (xs ys : List MsgFlags) (p : ParentProfile) :
    runMessages (xs ++ ys) p =
      ((runMessages ys (runMessages xs p).1).1,
       (runMessages xs p).2.1 ++ (runMessages ys (runMessages xs p).1).2.1,
       (runMessages xs p).2.2 + (runMessages ys (runMessages xs p).1).2.2) := by
  induction xs generalizing p with
  | nil => simp [runMessages]
  | cons x xs ih =>
    simp [runMessages, ih, List.append_assoc, Nat.add_assoc]

/-- Claim C3: an off-topic message from an unblocked, onboarded user
increments the per-profile counter; at resulting count 1 the reply is the
soft nudge, at a count strictly between 1 and the limit (3) it is the
human-handoff offer, at count ≥ 3 the profile becomes blocked with exactly
one operator notification; and over any run of consecutive off-topic messages
from a fresh profile exactly one operator notification is emitted once the
limit is crossed. -/
theorem off_topic_escalation (p : ParentProfile) (hb : p.isBlocked = false)
    (ho : p.onboardingCompleted = true) :
    ((handle_text_message p offTopicMsg).1.irrelevantCount = p.irrelevantCount + 1) ∧
    (p.irrelevantCount + 1 = 1 →
      handle_text_message p offTopicMsg =
        ({ p with irrelevantCount := 1 }, [.softNudge], 0)) ∧
    (1 < p.irrelevantCount + 1 ∧ p.irrelevantCount + 1 < IRRELEVANT_QUERY_LIMIT →
      handle_text_message p offTopicMsg =
        ({ p with irrelevantCount := p.irrelevantCount + 1 }, [.handoffOffer], 0)) ∧
    (IRRELEVANT_QUERY_LIMIT ≤ p.irrelevantCount + 1 →
      handle_text_message p offTopicMsg =
        ({ p with irrelevantCount := p.irrelevantCount + 1, isBlocked := true },
         [.blockHandoff], 1)) ∧
    (∀ n : Nat,
      (runMessages (List.replicate n offTopicMsg) ⟨0, false, true⟩).2.2 =
        (if IRRELEVANT_QUERY_LIMIT ≤ n then 1 else 0) ∧
      (IRRELEVANT_QUERY_LIMIT ≤ n →
        (runMessages (List.replicate n offTopicMsg) ⟨0, false, true⟩).1.isBlocked = true)) := by
  refine ⟨?_, ?_, ?_, ?_, ?_⟩
  · by_cases h1 : p.irrelevantCount + 1 = 1 <;>
      by_cases h2 : p.irrelevantCount + 1 < IRRELEVANT_QUERY_LIMIT <;>
      simp [handle_text_message, hb, ho, offTopicMsg, h1, h2]
  · intro h1
    simp [handle_text_message, hb, ho, offTopicMsg, h1]
  · rintro ⟨h1, h2⟩
    have h1' : ¬(p.irrelevantCount + 1 = 1) := by omega
    simp [handle_text_message, hb, ho, offTopicMsg, h1', h2]
  · intro h3
    have h1' : ¬(p.irrelevantCount + 1 = 1) := by
      simp [IRRELEVANT_QUERY_LIMIT] at h3; omega
    have h2' : ¬(p.irrelevantCount + 1 < IRRELEVANT_QUERY_LIMIT) := by omega
    simp [handle_text_message, hb, ho, offTopicMsg, h1', h2']
  · intro n
    match n with
    | 0 => exact ⟨by decide, by simp [IRRELEVANT_QUERY_LIMIT]⟩
    | 1 => exact ⟨by decide, by simp [IRRELEVANT_QUERY_LIMIT]⟩
    | 2 => exact ⟨by decide, by simp [IRRELEVANT_QUERY_LIMIT]⟩
    | (k + 3) =>
      have hsplit : List.replicate (k + 3) offTopicMsg =
          List.replicate 3 offTopicMsg ++ List.replicate k offTopicMsg := by
        rw [Nat.add_comm, List.replicate_add]
      have h3 : runMessages (List.replicate 3 offTopicMsg) ⟨0, false, true⟩ =
          (⟨3, true, true⟩, [.softNudge, .handoffOffer, .blockHandoff], 1) := by
        decide
      have hrest := runMessages_blocked (List.replicate k offTopicMsg)
        ⟨3, true, true⟩ rfl
      rw [hsplit, runMessages_append, h3, hrest]
      exact ⟨by simp [IRRELEVANT_QUERY_LIMIT], fun _ => rfl⟩

/-- Witness for C3 at concrete profiles with counters 0, 1 and 2: nudge,
handoff offer, then block with exactly one operator notification; three
consecutive off-topic messages from a fresh profile block it with exactly one
notification (Scenario E). -/
theorem off_topic_escalation_witness :
    ((handle_text_message ⟨0, false, true⟩ offTopicMsg).1.irrelevantCount = 0 + 1) ∧
    (handle_text_message ⟨0, false, true⟩ offTopicMsg =
      (⟨1, false, true⟩, [.softNudge], 0)) ∧
    (handle_text_message ⟨1, false, true⟩ offTopicMsg =
      (⟨2, false, true⟩, [.handoffOffer], 0)) ∧
    (handle_text_message ⟨2, false, true⟩ offTopicMsg =
      (⟨3, true, true⟩, [.blockHandoff], 1)) ∧
    ((runMessages (List.replicate 3 offTopicMsg) ⟨0, false, true⟩).2.2 = 1) ∧
    ((runMessages (List.replicate 3 offTopicMsg) ⟨0, false, true⟩).1.isBlocked = true) := by
  refine ⟨(off_topic_escalation ⟨0, false, true⟩ rfl rfl).1,
    (off_topic_escalation ⟨0, false, true⟩ rfl rfl).2.1 rfl,
    (off_topic_escalation ⟨1, false, true⟩ rfl rfl).2.2.1 ⟨by decide, by decide⟩,
    (off_topic_escalation ⟨2, false, true⟩ rfl rfl).2.2.2.1 (by decide),
    ?_, ?_⟩
  · have h := ((off_topic_escalation ⟨0, false, true⟩ rfl rfl).2.2.2.2 3).1
    simpa [IRRELEVANT_QUERY_LIMIT] using h
  · exact ((off_topic_escalation ⟨0, false, true⟩ rfl rfl).2.2.2.2 3).2 (by decide)

/-- Claim C4: a blocked profile gets no assistant reply for any incoming
message (the handler returns before producing anything and leaves the profile
unchanged), over any sequence of messages, until an explicit
`unblock_and_reset`, which sets `is_blocked = False` and simultaneously
resets the off-topic counter to exactly 0. -/
theorem blocked_profile_silent_until_unblock (p : ParentProfile)
    (hb : p.isBlocked = true) :
    (∀ m : MsgFlags, handle_text_message p m = (p, [], 0)) ∧
    (∀ ms : List MsgFlags, runMessages ms p = (p, [], 0)) ∧
    (unblock_and_reset p).isBlocked = false ∧
    (unblock_and_reset p).irrelevantCount = 0 :=
  ⟨fun m => handle_text_message_blocked p m hb,
   fun ms => runMessages_blocked ms p hb, rfl, rfl⟩

/-- Witness for C4 at a blocked profile with counter 2: no reply to a single
message or a two-message run, and unblocking clears flag and counter. -/
theorem blocked_profile_silent_until_unblock_witness :
    handle_text_message ⟨2, true, true⟩ offTopicMsg = (⟨2, true, true⟩, [], 0) ∧
    runMessages [offTopicMsg, offTopicMsg] ⟨2, true, true⟩ = (⟨2, true, true⟩, [], 0) ∧
    (unblock_and_reset ⟨2, true, true⟩).isBlocked = false ∧
    (unblock_and_reset ⟨2, true, true⟩).irrelevantCount = 0 :=
  ⟨(blocked_profile_silent_until_unblock ⟨2, true, true⟩ rfl).1 offTopicMsg,
   (blocked_profile_silent_until_unblock ⟨2, true, true⟩ rfl).2.1
     [offTopicMsg, offTopicMsg],
   (blocked_profile_silent_until_unblock ⟨2, true, true⟩ rfl).2.2.1,
   (blocked_profile_silent_until_unblock ⟨2, true, true⟩ rfl).2.2.2⟩

/-- Claim C5, failing input: a PLANNED lesson 60 minutes ahead (inside the
1-hour window) with its flag unset, whose Telegram send raises.  Because
`send_reminder_message` catches the `bot.send_message` exception itself
(tasks.py lines 177-180) and returns normally, the gather-based success
tracking (lines 93-111) still records the attempt as successful and sets
`reminder_1h_sent = True` even though no notification was delivered — the
flag is not "set to true only if its send succeeded".  The second run then
selects nothing, so the failed send is never retried within the window.
A delivery failure that raises outside that inner `try` (modelled by
`handlerRaised`) does leave the flag unset, which is the behavior the claim
and the spec describe. -/
theorem reminder_flag_set_despite_send_failure :
    check_and_send_reminders 0 (fun _ => .sendFailedSwallowed)
        [⟨1, 60, .PLANNED, false, false⟩] =
      ([⟨1, 60, .PLANNED, false, true⟩], []) ∧
    check_and_send_reminders 0 (fun _ => .sendFailedSwallowed)
        [⟨1, 60, .PLANNED, false, true⟩] =
      ([⟨1, 60, .PLANNED, false, true⟩], []) ∧
    check_and_send_reminders 0 (fun _ => .handlerRaised)
        [⟨1, 60, .PLANNED, false, false⟩] =
      ([⟨1, 60, .PLANNED, false, false⟩], []) ∧
    check_and_send_reminders 0 (fun _ => .delivered)
        [⟨1, 60, .PLANNED, false, false⟩] =
      ([⟨1, 60, .PLANNED, false, true⟩], [1]) ∧
    check_and_send_reminders 0 (fun _ => .delivered)
        [⟨1, 60, .PLANNED, false, true⟩] =
      ([⟨1, 60, .PLANNED, false, true⟩], []) := by
  decide

/-- Claim C6, counterexample: a PLANNED lesson scheduled exactly 60 minutes
ago — not MORE than 1 hour in the past — is nevertheless selected
(`scheduled_at <= now - 1h` is non-strict) and marked COMPLETED by one
completion sweep, so the claimed "if and only if strictly more than 1 hour"
fails at the boundary. -/
theorem completion_sweep_boundary_counterexample :
    check_completed_lessons 0 [⟨1, -60, .PLANNED, false, false⟩] =
      [⟨1, -60, .COMPLETED, false, false⟩] ∧
    ¬((0 : Int) - (-60) > 60) := by
  decide

/-- Claim C6 as amended: one completion sweep turns a lesson's status into
COMPLETED iff it already was COMPLETED or it is PLANNED and its scheduled
time is AT LEAST 1 hour in the past (non-strict comparison); an unselected
lesson is untouched; in particular a PLANNED lesson scheduled 90 minutes ago
becomes COMPLETED and one scheduled 30 minutes ago is unchanged. -/
theorem completion_sweep_iff_at_least_one_hour (now : Int) (l : Lesson) :
    ((completeLessonSweepOne now l).status = .COMPLETED ↔
      l.status = .COMPLETED ∨ (l.status = .PLANNED ∧ l.scheduledAt ≤ now - 60)) ∧
    (¬(l.status = .PLANNED ∧ l.scheduledAt ≤ now - 60) →
      completeLessonSweepOne now l = l) ∧
    (completeLessonSweepOne now ⟨l.id, now - 90, .PLANNED, false, false⟩).status
      = .COMPLETED ∧
    completeLessonSweepOne now ⟨l.id, now - 30, .PLANNED, false, false⟩
      = ⟨l.id, now - 30, .PLANNED, false, false⟩ ∧
    check_completed_lessons now [l] = [completeLessonSweepOne now l] := by
  refine ⟨?_, ?_, ?_, ?_, rfl⟩
  · by_cases h : l.status = .PLANNED ∧ l.scheduledAt ≤ now - 60
    · rw [completeLessonSweepOne, if_pos h]
      simp [h]
    · rw [completeLessonSweepOne, if_neg h]
      tauto
  · intro h
    rw [completeLessonSweepOne, if_neg h]
  · rw [completeLessonSweepOne,
      if_pos ⟨rfl, show now - 90 ≤ now - 60 by omega⟩]
  · rw [completeLessonSweepOne,
      if_neg (fun h => absurd h.2 (show ¬(now - 30 ≤ now - 60) by omega))]

/-- Witness for C6 (amended) at a concrete input: now = 0, a PLANNED lesson
scheduled 90 minutes ago. -/
theorem completion_sweep_iff_at_least_one_hour_witness :
    ((completeLessonSweepOne 0 ⟨1, -90, .PLANNED, false, false⟩).status = .COMPLETED ↔
      TrialLessonStatus.PLANNED = .COMPLETED ∨
        (TrialLessonStatus.PLANNED = .PLANNED ∧ (-90 : Int) ≤ 0 - 60)) ∧
    completeLessonSweepOne 0 ⟨1, -30, .PLANNED, false, false⟩
      = ⟨1, -30, .PLANNED, false, false⟩ :=
  ⟨(completion_sweep_iff_at_least_one_hour 0 ⟨1, -90, .PLANNED, false, false⟩).1,
   (completion_sweep_iff_at_least_one_hour 0 ⟨1, -30, .PLANNED, false, false⟩).2.1
     (by simp)⟩

/-- Claim C7: `book_slot` re-verifies availability against the provider
before creating the remote event — an event is only ever created after the
re-check passed — and when the re-check finds the slot occupied it returns
`success = False` with the "slot unavailable" reason (`'Слот уже занят'`)
and neither a remote event nor a Lesson row is created. -/
theorem book_slot_reverifies_before_create (busyCheck : Option (List BusyInterval))
    (s e : Int) (userId : Option Nat) (createOutcome : Option String)
    (dbOutcome : DbPersistOutcome) :
    ((book_slot busyCheck s e userId createOutcome dbOutcome).2.createdEvent = true →
      is_slot_available s e busyCheck = true) ∧
    (is_slot_available s e busyCheck = false →
      book_slot busyCheck s e userId createOutcome dbOutcome =
        ({ success := false, error := some "Слот уже занят",
           eventId := none, lessonId := none },
         { createdEvent := false, createdLesson := false })) := by
  cases hx : is_slot_available s e busyCheck
  · constructor
    · intro h
      simp [book_slot, hx] at h
    · intro _
      simp [book_slot, hx]
  · exact ⟨fun _ => rfl, fun hfalse => by simp [hx] at hfalse⟩

/-- Witness for C7: slot 00:30-01:30 against a busy interval 00:00-02:00 —
the re-check fails, the booking is rejected with the unavailable reason and
no event or lesson is created. -/
theorem book_slot_reverifies_before_create_witness :
    book_slot (some [⟨0, 120⟩]) 30 90 (some 7) (some "evt") (.dbSaved 5) =
      ({ success := false, error := some "Слот уже занят",
         eventId := none, lessonId := none },
       { createdEvent := false, createdLesson := false }) :=
  (book_slot_reverifies_before_create (some [⟨0, 120⟩]) 30 90 (some 7)
    (some "evt") (.dbSaved 5)).2 (by decide)

/-- Claim C10: whenever the availability re-check passes and the remote event
creation succeeds, `book_slot` reports `success = True` even if the database
persistence step fails (exception caught, lines 199-202) or the database is
unavailable (`get_or_create_parent` returns None); the result then carries
`lesson_id = None`, so a successful booking does not guarantee a Lesson row
exists. -/
theorem book_slot_success_despite_db_failure (busyCheck : Option (List BusyInterval))
    (s e : Int) (uid : Nat) (eid : String) (dbOutcome : DbPersistOutcome)
    (hav : is_slot_available s e busyCheck = true)
    (hdb : dbOutcome = .dbUnavailable ∨ dbOutcome = .dbError) :
    (book_slot busyCheck s e (some uid) (some eid) dbOutcome).1.success = true ∧
    (book_slot busyCheck s e (some uid) (some eid) dbOutcome).1.eventId = some eid ∧
    (book_slot busyCheck s e (some uid) (some eid) dbOutcome).1.lessonId = none ∧
    (book_slot busyCheck s e (some uid) (some eid) dbOutcome).2.createdEvent = true ∧
    (book_slot busyCheck s e (some uid) (some eid) dbOutcome).2.createdLesson = false := by
  rcases hdb with h | h <;> subst h <;> simp [book_slot, hav]

/-- Witness for C10: free calendar, event "E" created, database raising —
the booking still succeeds with no lesson id. -/
theorem book_slot_success_despite_db_failure_witness :
    (book_slot (some []) 0 60 (some 1) (some "E") .dbError).1.success = true ∧
    (book_slot (some []) 0 60 (some 1) (some "E") .dbError).1.eventId = some "E" ∧
    (book_slot (some []) 0 60 (some 1) (some "E") .dbError).1.lessonId = none ∧
    (book_slot (some []) 0 60 (some 1) (some "E") .dbError).2.createdEvent = true ∧
    (book_slot (some []) 0 60 (some 1) (some "E") .dbError).2.createdLesson = false :=
  book_slot_success_despite_db_failure (some []) 0 60 1 "E" .dbError
    (by decide) (Or.inr rfl)

/-- Claim C8, counterexample: starting from an empty store, if
`add_child_profile` commits and `complete_onboarding_in_db` then fails, the
Dependent row persists while none of the Profile contact fields nor the
completion timestamp is set — the three steps are not all-or-nothing. -/
theorem finish_onboarding_not_atomic :
    (finish_onboarding ⟨[], ⟨none, none, none, none, false⟩⟩
        ⟨"Misha", 10, some "games"⟩ (some "Anna") (some "+7900") none 500
        true false).1.children = [⟨"Misha", 10, some "games"⟩] ∧
    (finish_onboarding ⟨[], ⟨none, none, none, none, false⟩⟩
        ⟨"Misha", 10, some "games"⟩ (some "Anna") (some "+7900") none 500
        true false).1.parent = ⟨none, none, none, none, false⟩ ∧
    (finish_onboarding ⟨[], ⟨none, none, none, none, false⟩⟩
        ⟨"Misha", 10, some "games"⟩ (some "Anna") (some "+7900") none 500
        true false).2 = false := by
  decide

/-- Claim C8 as amended: the Profile side of onboarding completion is atomic
— one UPDATE sets the contact fields, the onboarding step and the completion
timestamp together or not at all — but the Dependent creation is a separate,
earlier transaction: if the child insert fails nothing is persisted, while if
the completion update fails after the child insert committed, the Dependent
row persists and the Profile row stays untouched. -/
theorem finish_onboarding_split_transactions (st : OnboardingStore) (c : ChildRec)
    (fullName phone email : Option String) (now : Int) (ok1 ok2 : Bool) :
    (ok1 = false → finish_onboarding st c fullName phone email now ok1 ok2 = (st, false)) ∧
    (ok1 = true →
      (finish_onboarding st c fullName phone email now ok1 ok2).1.children =
        st.children ++ [c]) ∧
    (((finish_onboarding st c fullName phone email now ok1 ok2).1.parent =
        { fullName := fullName, phone := phone, email := email,
          onboardingCompletedAt := some now, onboardingStepCompleted := true } ∧
      (finish_onboarding st c fullName phone email now ok1 ok2).2 = true) ∨
     ((finish_onboarding st c fullName phone email now ok1 ok2).1.parent = st.parent ∧
      (finish_onboarding st c fullName phone email now ok1 ok2).2 = false)) := by
  cases ok1 <;> cases ok2 <;>
    simp [finish_onboarding, add_child_profile, complete_onboarding_in_db]

/-- Witness for C8 (amended) at a concrete store: child insert succeeds, the
completion update fails — the child list grew and the parent row is
untouched with the handler reporting failure. -/
theorem finish_onboarding_split_transactions_witness :
    (finish_onboarding ⟨[], ⟨none, none, none, none, false⟩⟩
        ⟨"Misha", 10, none⟩ (some "Anna") none (some "a@b.c") 500
        true false).1.children = [] ++ [⟨"Misha", 10, none⟩] ∧
    (((finish_onboarding ⟨[], ⟨none, none, none, none, false⟩⟩
         ⟨"Misha", 10, none⟩ (some "Anna") none (some "a@b.c") 500
         true false).1.parent =
        { fullName := some "Anna", phone := none, email := some "a@b.c",
          onboardingCompletedAt := some 500, onboardingStepCompleted := true } ∧
      (finish_onboarding ⟨[], ⟨none, none, none, none, false⟩⟩
          ⟨"Misha", 10, none⟩ (some "Anna") none (some "a@b.c") 500
          true false).2 = true) ∨
     ((finish_onboarding ⟨[], ⟨none, none, none, none, false⟩⟩
          ⟨"Misha", 10, none⟩ (some "Anna") none (some "a@b.c") 500
          true false).1.parent = ⟨none, none, none, none, false⟩ ∧
      (finish_onboarding ⟨[], ⟨none, none, none, none, false⟩⟩
          ⟨"Misha", 10, none⟩ (some "Anna") none (some "a@b.c") 500
          true false).2 = false)) :=
  ⟨(finish_onboarding_split_transactions ⟨[], ⟨none, none, none, none, false⟩⟩
      ⟨"Misha", 10, none⟩ (some "Anna") none (some "a@b.c") 500 true false).2.1 rfl,
   (finish_onboarding_split_transactions ⟨[], ⟨none, none, none, none, false⟩⟩
      ⟨"Misha", 10, none⟩ (some "Anna") none (some "a@b.c") 500 true false).2.2⟩

theorem cyrillicCount_eq_zero_iff (t : List Char) :
    cyrillicCount t = 0 ↔ ∀ c ∈ t, isCyrillicLetter c = false := by
  rw [cyrillicCount, List.length_eq_zero, List.filter_eq_nil_iff]
  simp

theorem latinCount_pos_iff (t : List Char) :
    0 < latinCount t ↔ ∃ c ∈ t, isLatinLetter c = true := by
  rw [latinCount, List.length_pos, ne_eq, List.filter_eq_nil_iff]
  push_neg
  simp

/-- Claim C9, counterexample: in the text "a b я" the single native-script
letter is outnumbered exactly 2:1 by foreign-script letters (2 ≥ 2·1), so
the claimed trigger condition holds, yet `needs_layout_correction` is false
(the code requires latin > 2·cyrillic, strictly) and the wrapper performs no
transliterated re-classification — the classifier runs exactly once. -/
theorem needs_layout_correction_ratio_counterexample :
    latinCount "a b я".toList = 2 ∧
    cyrillicCount "a b я".toList = 1 ∧
    2 * cyrillicCount "a b я".toList ≤ latinCount "a b я".toList ∧
    needs_layout_correction "a b я".toList = false ∧
    is_query_relevant_with_layout_correction (fun _ => false) "a b я".toList
      = (false, 1) := by
  decide

/-- Claim C9 as amended: after the classifier answers "no", the
layout-correction retry is triggered exactly when the text has no
native-script (Cyrillic) letters but some foreign-script (Latin) letters, or
the native-script letters are outnumbered STRICTLY MORE than 2:1 by
foreign-script letters, or the text is at most 2 words all in foreign
script; when triggered and the keyboard-map transliteration changes the
text, the input is re-classified exactly once (two classifier calls in
total, never more), and the verdict is the classifier's answer on the
transliterated text. -/
theorem layout_correction_trigger_iff (t : List Char) :
    (needs_layout_correction t = true ↔
      ((∀ c ∈ t, isCyrillicLetter c = false) ∧ (∃ c ∈ t, isLatinLetter c = true)) ∨
      2 * cyrillicCount t < latinCount t ∨
      ((splitWords t).length ≤ 2 ∧
        ∀ w ∈ splitWords t, w ≠ [] ∧ ∀ c ∈ w, isLatinLetter c = true)) ∧
    (∀ classify : List Char → Bool,
      (is_query_relevant_with_layout_correction classify t).2 ≤ 2 ∧
      ((is_query_relevant_with_layout_correction classify t).2 = 2 ↔
        classify t = false ∧ needs_layout_correction t = true ∧
          to_russian_layout t ≠ t) ∧
      (classify t = false → needs_layout_correction t = true →
        to_russian_layout t ≠ t →
        (is_query_relevant_with_layout_correction classify t).1 =
          classify (to_russian_layout t))) := by
  constructor
  · simp only [needs_layout_correction]
    split_ifs with h1 h2 h3
    · simp only [Bool.and_eq_true, beq_iff_eq, decide_eq_true_eq] at h1
      exact iff_of_true rfl (Or.inl ⟨(cyrillicCount_eq_zero_iff t).mp h1.1,
        (latinCount_pos_iff t).mp h1.2⟩)
    · simp only [decide_eq_true_eq] at h2
      exact iff_of_true rfl (Or.inr (Or.inl h2))
    · simp only [Bool.and_eq_true, decide_eq_true_eq, List.all_eq_true] at h3
      refine iff_of_true rfl (Or.inr (Or.inr ⟨h3.1, fun w hw => ?_⟩))
      have hword := h3.2 w hw
      simpa [wordAllLatin, List.isEmpty_iff, List.all_eq_true] using hword
    · refine iff_of_false (by simp) ?_
      rintro (⟨hcyr, hlat⟩ | hlt | ⟨hlen, hall⟩)
      · exact h1 (by
          simp only [Bool.and_eq_true, beq_iff_eq, decide_eq_true_eq]
          exact ⟨(cyrillicCount_eq_zero_iff t).mpr hcyr,
            (latinCount_pos_iff t).mpr hlat⟩)
      · exact h2 (by simpa using hlt)
      · refine h3 ?_
        simp only [Bool.and_eq_true, decide_eq_true_eq, List.all_eq_true]
        refine ⟨hlen, fun w hw => ?_⟩
        obtain ⟨hne, hc⟩ := hall w hw
        simp only [wordAllLatin, Bool.and_eq_true, Bool.not_eq_true',
          List.isEmpty_iff, List.all_eq_true]
        exact ⟨by simpa using hne, hc⟩
  · intro classify
    cases hc : classify t
    · by_cases hn : needs_layout_correction t = true
      · by_cases hf : to_russian_layout t = t
        · refine ⟨?_, ?_, ?_⟩ <;>
            simp [is_query_relevant_with_layout_correction, hc, hn, hf]
        · refine ⟨?_, ?_, ?_⟩ <;>
            simp [is_query_relevant_with_layout_correction, hc, hn, hf]
      · have hn' : needs_layout_correction t = false := by
          simpa using hn
        refine ⟨?_, ?_, ?_⟩ <;>
          simp [is_query_relevant_with_layout_correction, hc, hn']
    · refine ⟨?_, ?_, ?_⟩ <;>
        simp [is_query_relevant_with_layout_correction, hc]

/-- Witness for C9 (amended) at the concrete mistyped text "ghbdtn"
("привет" typed on an English layout): the trigger fires, the classifier is
invoked exactly twice, and the verdict is the classifier's answer on the
transliterated text. -/
theorem layout_correction_trigger_iff_witness :
    (needs_layout_correction "ghbdtn".toList = true ↔
      ((∀ c ∈ "ghbdtn".toList, isCyrillicLetter c = false) ∧
        (∃ c ∈ "ghbdtn".toList, isLatinLetter c = true)) ∨
      2 * cyrillicCount "ghbdtn".toList < latinCount "ghbdtn".toList ∨
      ((splitWords "ghbdtn".toList).length ≤ 2 ∧
        ∀ w ∈ splitWords "ghbdtn".toList, w ≠ [] ∧
          ∀ c ∈ w, isLatinLetter c = true)) ∧
    (is_query_relevant_with_layout_correction (fun q => decide (q = "привет".toList))
      "ghbdtn".toList).2 = 2 ∧
    (is_query_relevant_with_layout_correction (fun q => decide (q = "привет".toList))
        "ghbdtn".toList).1 =
      (fun q => decide (q = "привет".toList)) (to_russian_layout "ghbdtn".toList) :=
  ⟨(layout_correction_trigger_iff "ghbdtn".toList).1,
   ((layout_correction_trigger_iff "ghbdtn".toList).2
       (fun q => decide (q = "привет".toList))).2.1.mpr
     ⟨by decide, by decide, by decide⟩,
   ((layout_correction_trigger_iff "ghbdtn".toList).2
       (fun q => decide (q = "привет".toList))).2.2
     (by decide) (by decide) (by decide)⟩

end CalendarBot
